import Mathlib

/-!
# Verification of `rust-microservices` (inet2 address codec and ESB controller)

Shallow embedding of the two subsystems of the repository:

* the universal internet address type and its fixed-width uniform binary
  codec (`src/inet2_addr/src/lib.rs`), built with the `tor` feature, so the
  address sum has all four cases (IPv4, IPv6, TorV2, TorV3);
* the enterprise-service-bus controller and its send facade
  (`src/services/src/esb.rs`).

Machine bytes (`u8`) are modelled as `Fin 256`; `u16` as `Fin 65536`;
byte strings (`Vec<u8>`, `&[u8]`) as `List (Fin 256)`.  Fallible Rust code
returning `Result`/`Option` is modelled with `Except`/`Option`.  Types from
external crates (`torut`, `std::net`, `lnpbp`) that the repository code only
stores or calls are modelled by their documented data content, with a comment
at each definition naming the external item.
-/

namespace RustMicroservices

/-- A `u8` byte. -/
abbrev Byte := Fin 256

/-- A byte string (`Vec<u8>` / `&[u8]`). -/
abbrev Bytes := List Byte

/-- `std::net::Ipv4Addr`: exactly 4 octets. -/
abbrev Ipv4Addr := { l : Bytes // l.length = 4 }

/-- `std::net::Ipv6Addr`: exactly 16 octets. -/
abbrev Ipv6Addr := { l : Bytes // l.length = 16 }

/-- `torut::onion::OnionAddressV2`: carries 10 raw onion bytes
(`get_raw_bytes` returns `[u8; 10]`). -/
abbrev OnionAddressV2 := { l : Bytes // l.length = 10 }

/-- `torut::onion::TorPublicKeyV3`: a 32-byte ed25519 public key
(`TORV3_PUBLIC_KEY_LENGTH = 32`; `to_bytes` returns the raw 32 bytes). -/
abbrev TorPublicKeyV3 := { l : Bytes // l.length = 32 }

/-- `torut::onion::TORV3_PUBLIC_KEY_LENGTH` (= 32). -/
def TORV3_PUBLIC_KEY_LENGTH : Nat := 32

/-- `InetAddr` (src/inet2_addr/src/lib.rs, lines 148-162), with the `tor`
feature enabled so that all four variants are present. -/
inductive InetAddr
  /-- IP address of V4 standard -/
  | IPv4 (addr : Ipv4Addr)
  /-- IP address of V6 standard -/
  | IPv6 (addr : Ipv6Addr)
  /-- Tor address of V2 standard -/
  | TorV2 (addr : OnionAddressV2)
  /-- Tor address of V3 standard -/
  | Tor (key : TorPublicKeyV3)
deriving DecidableEq

namespace InetAddr

/-- `InetAddr::UNIFORM_ADDR_LEN = TORV3_PUBLIC_KEY_LENGTH + 1` (line 211).
NB: this value is 33, although the source comment next to it says `//32usize`. -/
def UNIFORM_ADDR_LEN : Nat := TORV3_PUBLIC_KEY_LENGTH + 1

/-- `InetAddr::IPV4_TAG` (line 213). -/
def IPV4_TAG : Byte := 0
/-- `InetAddr::IPV6_TAG` (line 214). -/
def IPV6_TAG : Byte := 1
/-- `InetAddr::TORV2_TAG` (line 216). -/
def TORV2_TAG : Byte := 2
/-- `InetAddr::TORV3_TAG` (line 218). -/
def TORV3_TAG : Byte := 3

end InetAddr

/-- `<[u8; 4] as TryFrom<&[u8]>>`-style constructor used to model
`a.clone_from_slice(&slice[29..])` into a `[u8; 4]`: succeeds exactly when
the slice has length 4 (in the source the length is guaranteed by the
enclosing length check). -/
def ipv4FromBytes (l : Bytes) : Option Ipv4Addr :=
  if h : l.length = 4 then some ⟨l, h⟩ else none

/-- Model of copying a slice into a `[u8; 16]` (see `ipv4FromBytes`). -/
def ipv6FromBytes (l : Bytes) : Option Ipv6Addr :=
  if h : l.length = 16 then some ⟨l, h⟩ else none

/-- `torut::onion::TorPublicKeyV3::from_bytes(&[u8; 32]) -> Result`.
External crate function: it rejects byte strings that are not valid ed25519
public keys and accepts every output of `TorPublicKeyV3::to_bytes`.  Since our
`TorPublicKeyV3` carries exactly its 32 raw bytes (point validity abstracted),
the model accepts every 32-byte string; this is faithful on all inputs that
are `to_bytes` images, which is what the round-trip claims consume. -/
def torPublicKeyV3FromBytes (l : Bytes) : Option TorPublicKeyV3 :=
  if h : l.length = 32 then some ⟨l, h⟩ else none

namespace InetAddr

/-- `InetAddr::to_uniform_encoding` (lines 338-361): a 33-byte buffer,
initially zero, with `buf[0]` the variant tag and the native payload copied
at the right-aligned offset (`buf[29..]`, `buf[17..]`, `buf[23..]`, `buf[1..]`
for IPv4 / IPv6 / TorV2 / TorV3 respectively). -/
def to_uniform_encoding : InetAddr → Bytes
  | .IPv4 a => IPV4_TAG :: (List.replicate 28 (0 : Byte) ++ a.val)
  | .IPv6 a => IPV6_TAG :: (List.replicate 16 (0 : Byte) ++ a.val)
  | .TorV2 o => TORV2_TAG :: (List.replicate 22 (0 : Byte) ++ o.val)
  | .Tor k => TORV3_TAG :: k.val

/-- `InetAddr::from_uniform_encoding` (lines 306-333): checks the length is
`UNIFORM_ADDR_LEN`, then dispatches on `slice[0]`.  The match has arms for
`IPV4_TAG`, `IPV6_TAG` and `TORV3_TAG` only; every other first byte
(including `TORV2_TAG`) falls to the wildcard and yields `None`. -/
def from_uniform_encoding (data : Bytes) : Option InetAddr :=
  if data.length = UNIFORM_ADDR_LEN then
    match data with
    | tag :: rest =>
      if tag = IPV4_TAG then
        (ipv4FromBytes (rest.drop 28)).map InetAddr.IPv4
      else if tag = IPV6_TAG then
        (ipv6FromBytes (rest.drop 16)).map InetAddr.IPv6
      else if tag = TORV3_TAG then
        (torPublicKeyV3FromBytes rest).map InetAddr.Tor
      else
        none
    | [] => none
  else none

/-- `Ipv4Addr::to_ipv6_mapped`: `::ffff:a.b.c.d`, i.e. 10 zero bytes,
two `0xff` bytes, then the 4 IPv4 octets. -/
def ipv6Mapped (a : Ipv4Addr) : Ipv6Addr :=
  ⟨List.replicate 10 (0 : Byte) ++ [(255 : Byte), (255 : Byte)] ++ a.val,
   by simp [a.property]⟩

/-- `InetAddr::to_ipv6` (lines 228-235). -/
def to_ipv6 : InetAddr → Option Ipv6Addr
  | .IPv4 ipv4_addr => some (ipv6Mapped ipv4_addr)
  | .IPv6 ipv6_addr => some ipv6_addr
  | _ => none

/-- `InetAddr::to_ipv4` (lines 238-245); its body is identical to
`to_ipv6`'s, and its return type is `Option<Ipv6Addr>`. -/
def to_ipv4 : InetAddr → Option Ipv6Addr
  | .IPv4 ipv4_addr => some (ipv6Mapped ipv4_addr)
  | .IPv6 ipv6_addr => some ipv6_addr
  | _ => none

end InetAddr

/-- `impl Default for InetAddr` (lines 364-369): `IPv4(Ipv4Addr::from(0))`,
i.e. `0.0.0.0`. -/
def InetAddr.default : InetAddr :=
  .IPv4 ⟨List.replicate 4 (0 : Byte), by simp⟩

/-- `u16::to_be_bytes`: big-endian byte pair. -/
def u16ToBeBytes (p : Fin 65536) : Bytes :=
  [⟨p.val / 256, Nat.div_lt_of_lt_mul p.isLt⟩,
   ⟨p.val % 256, Nat.mod_lt _ (by norm_num)⟩]

/-- `u16::from_be_bytes`. -/
def u16FromBeBytes (b0 b1 : Byte) : Fin 65536 :=
  ⟨b0.val * 256 + b1.val, by
    have h0 := b0.isLt
    have h1 := b1.isLt
    omega⟩

/-- `InetSocketAddr` (lines 686-692): an address and a `u16` port. -/
structure InetSocketAddr where
  /-- Address part of the socket -/
  address : InetAddr
  /-- Port of the socket -/
  port : Fin 65536
deriving DecidableEq

namespace InetSocketAddr

/-- `InetSocketAddr::UNIFORM_ADDR_LEN = InetAddr::UNIFORM_ADDR_LEN + 2`
(line 717), i.e. 35. -/
def UNIFORM_ADDR_LEN : Nat := InetAddr.UNIFORM_ADDR_LEN + 2

/-- `InetSocketAddr::new` (line 703). -/
def new (address : InetAddr) (port : Fin 65536) : InetSocketAddr :=
  ⟨address, port⟩

/-- `InetSocketAddr::to_uniform_encoding` (lines 746-753): the 33-byte
address encoding followed by the big-endian port. -/
def to_uniform_encoding (sa : InetSocketAddr) : Bytes :=
  sa.address.to_uniform_encoding ++ u16ToBeBytes sa.port

/-- `InetSocketAddr::from_uniform_encoding` (lines 723-740): length check,
then the address from the first 33 bytes and the port from the last 2.  The
final wildcard arm is unreachable under the length check; it models the
`[u8; 2]` copy that the length check justifies in the source. -/
def from_uniform_encoding (data : Bytes) : Option InetSocketAddr :=
  if data.length = UNIFORM_ADDR_LEN then
    match InetAddr.from_uniform_encoding (data.take InetAddr.UNIFORM_ADDR_LEN) with
    | none => none
    | some address =>
      match data.drop InetAddr.UNIFORM_ADDR_LEN with
      | [b0, b1] => some ⟨address, u16FromBeBytes b0 b1⟩
      | _ => none
  else none

end InetSocketAddr

/-- `Transport` (lines 585-607): `Tcp = 1`, `Udp = 2`, `Mtcp = 3`, `Quic = 4`. -/
inductive Transport
  /-- Normal TCP -/
  | Tcp
  /-- Normal UDP -/
  | Udp
  /-- Multipath TCP version -/
  | Mtcp
  /-- QUIC -/
  | Quic
deriving DecidableEq

namespace Transport

/-- `Transport::to_uniform_encoding` (lines 627-629): the discriminant byte. -/
def to_uniform_encoding : Transport → Byte
  | .Tcp => 1
  | .Udp => 2
  | .Mtcp => 3
  | .Quic => 4

/-- `Transport::from_uniform_encoding` (lines 614-623): recognizes the four
discriminant bytes, otherwise `None`. -/
def from_uniform_encoding (data : Byte) : Option Transport :=
  if data = (1 : Byte) then some .Tcp
  else if data = (2 : Byte) then some .Udp
  else if data = (3 : Byte) then some .Mtcp
  else if data = (4 : Byte) then some .Quic
  else none

end Transport

/-- `InetSocketAddrExt` (lines 856-862): a transport plus a socket address. -/
structure InetSocketAddrExt where
  /-- Transport-level protocol details (like TCP, UDP etc) -/
  transport : Transport
  /-- Details of the socket address -/
  socket : InetSocketAddr
deriving DecidableEq

namespace InetSocketAddrExt

/-- `InetSocketAddrExt::UNIFORM_ADDR_LEN = InetSocketAddr::UNIFORM_ADDR_LEN + 1`
(line 872), i.e. 36. -/
def UNIFORM_ADDR_LEN : Nat := InetSocketAddr.UNIFORM_ADDR_LEN + 1

/-- `InetSocketAddrExt::to_uniform_encoding` (lines 908-913): the transport
byte followed by the 35-byte socket encoding. -/
def to_uniform_encoding (e : InetSocketAddrExt) : Bytes :=
  e.transport.to_uniform_encoding :: e.socket.to_uniform_encoding

/-- `InetSocketAddrExt::from_uniform_encoding` (lines 892-902). -/
def from_uniform_encoding (data : Bytes) : Option InetSocketAddrExt :=
  if data.length = UNIFORM_ADDR_LEN then
    match data with
    | t :: rest =>
      match Transport.from_uniform_encoding t with
      | none => none
      | some transport =>
        match InetSocketAddr.from_uniform_encoding rest with
        | none => none
        | some socket => some ⟨transport, socket⟩
    | [] => none
  else none

end InetSocketAddrExt

/-! ## Round-trip lemmas for the uniform address codec -/

namespace InetAddr

theorem roundtrip_ipv4 (a : Ipv4Addr) :
    from_uniform_encoding (to_uniform_encoding (.IPv4 a)) = some (.IPv4 a) := by
  obtain ⟨l, h⟩ := a
  have hd : (List.replicate 28 (0 : Byte) ++ l).drop 28 = l :=
    List.drop_left' (by simp)
  simp [to_uniform_encoding, from_uniform_encoding, UNIFORM_ADDR_LEN,
    TORV3_PUBLIC_KEY_LENGTH, h, hd, ipv4FromBytes, IPV4_TAG]

theorem roundtrip_ipv6 (a : Ipv6Addr) :
    from_uniform_encoding (to_uniform_encoding (.IPv6 a)) = some (.IPv6 a) := by
  obtain ⟨l, h⟩ := a
  have hd : (List.replicate 16 (0 : Byte) ++ l).drop 16 = l :=
    List.drop_left' (by simp)
  simp [to_uniform_encoding, from_uniform_encoding, UNIFORM_ADDR_LEN,
    TORV3_PUBLIC_KEY_LENGTH, h, hd, ipv6FromBytes, IPV4_TAG, IPV6_TAG]

theorem roundtrip_torv3 (k : TorPublicKeyV3) :
    from_uniform_encoding (to_uniform_encoding (.Tor k)) = some (.Tor k) := by
  obtain ⟨l, h⟩ := k
  simp [to_uniform_encoding, from_uniform_encoding, UNIFORM_ADDR_LEN,
    TORV3_PUBLIC_KEY_LENGTH, h, torPublicKeyV3FromBytes, IPV4_TAG, IPV6_TAG,
    TORV3_TAG]

/-- The TorV2 case of the round trip fails: the encoder emits tag byte 2,
and the decoder's match has no `TORV2_TAG` arm, so tag 2 falls through to
the wildcard and decoding returns `none`. -/
theorem roundtrip_torv2_fails (o : OnionAddressV2) :
    from_uniform_encoding (to_uniform_encoding (.TorV2 o)) = none := by
  obtain ⟨l, h⟩ := o
  simp [to_uniform_encoding, from_uniform_encoding, UNIFORM_ADDR_LEN,
    TORV3_PUBLIC_KEY_LENGTH, h, IPV4_TAG, IPV6_TAG, TORV3_TAG, TORV2_TAG]

/-- Wrong input length makes decoding fail. -/
theorem from_uniform_encoding_wrong_length (data : Bytes)
    (h : data.length ≠ UNIFORM_ADDR_LEN) :
    from_uniform_encoding data = none := by
  simp [from_uniform_encoding, h]

/-- A first byte outside the decoder's recognized tags makes decoding fail. -/
theorem from_uniform_encoding_unknown_tag (tag : Byte) (rest : Bytes)
    (h0 : tag ≠ IPV4_TAG) (h1 : tag ≠ IPV6_TAG) (h3 : tag ≠ TORV3_TAG) :
    from_uniform_encoding (tag :: rest) = none := by
  by_cases hlen : (tag :: rest).length = UNIFORM_ADDR_LEN
  · simp [from_uniform_encoding, hlen, h0, h1, h3]
  · unfold from_uniform_encoding
    rw [if_neg hlen]

/-- Every address encodes to exactly `UNIFORM_ADDR_LEN = 33` bytes. -/
theorem to_uniform_encoding_length (a : InetAddr) :
    a.to_uniform_encoding.length = 33 := by
  cases a with
  | IPv4 a => simp [to_uniform_encoding, a.property]
  | IPv6 a => simp [to_uniform_encoding, a.property]
  | TorV2 o => simp [to_uniform_encoding, o.property]
  | Tor k => simp [to_uniform_encoding, k.property]

end InetAddr

/-- **C1** — Uniform-encoding round-trip for addresses.  The round trip holds
for IPv4, IPv6 and TorV3 (`InetAddr.roundtrip_ipv4/_ipv6/_torv3`), and
decoding fails on wrong lengths and unrecognized first bytes; but it FAILS
for TorV2: `to_uniform_encoding` emits tag byte 2 while the decoder's match
has no `TORV2_TAG` arm, so the encoding of any TorV2 address decodes to
`none`.  Evaluated here at the TorV2 address with raw bytes `00 × 10`. -/
theorem claim_C1_roundtrip_fails_for_torv2 :
    InetAddr.from_uniform_encoding
      (InetAddr.to_uniform_encoding
        (.TorV2 ⟨List.replicate 10 (0 : Byte), by simp⟩)) = none :=
  InetAddr.roundtrip_torv2_fails _

/-- **C2** (counterexample) — the claim says the uniform encoding of every
address is exactly 32 bytes; in the code `UNIFORM_ADDR_LEN` is
`TORV3_PUBLIC_KEY_LENGTH + 1 = 33`, so already the default address
`0.0.0.0` encodes to 33 bytes, not 32. -/
theorem claim_C2_counterexample :
    InetAddr.default.to_uniform_encoding.length ≠ 32 := by decide

/-- **C2** (amended) — Encoding widths and layout: every address encodes to
exactly 33 bytes (not 32), with byte 0 the case tag (0=IPv4, 1=IPv6,
2=TorV2, 3=TorV3) and the native payload right-aligned in the remaining 32
bytes over a zero pad; every socket-address encoding is exactly 35 bytes and
every extended-socket-address encoding is exactly 36 bytes. -/
theorem claim_C2_widths_and_layout :
    (∀ a : InetAddr, a.to_uniform_encoding.length = InetAddr.UNIFORM_ADDR_LEN
        ∧ InetAddr.UNIFORM_ADDR_LEN = 33) ∧
    (∀ a : Ipv4Addr,
        (InetAddr.IPv4 a).to_uniform_encoding.head? = some InetAddr.IPV4_TAG
        ∧ (InetAddr.IPv4 a).to_uniform_encoding.drop 29 = a.val
        ∧ ((InetAddr.IPv4 a).to_uniform_encoding.drop 1).take 28
            = List.replicate 28 (0 : Byte)) ∧
    (∀ a : Ipv6Addr,
        (InetAddr.IPv6 a).to_uniform_encoding.head? = some InetAddr.IPV6_TAG
        ∧ (InetAddr.IPv6 a).to_uniform_encoding.drop 17 = a.val
        ∧ ((InetAddr.IPv6 a).to_uniform_encoding.drop 1).take 16
            = List.replicate 16 (0 : Byte)) ∧
    (∀ o : OnionAddressV2,
        (InetAddr.TorV2 o).to_uniform_encoding.head? = some InetAddr.TORV2_TAG
        ∧ (InetAddr.TorV2 o).to_uniform_encoding.drop 23 = o.val
        ∧ ((InetAddr.TorV2 o).to_uniform_encoding.drop 1).take 22
            = List.replicate 22 (0 : Byte)) ∧
    (∀ k : TorPublicKeyV3,
        (InetAddr.Tor k).to_uniform_encoding.head? = some InetAddr.TORV3_TAG
        ∧ (InetAddr.Tor k).to_uniform_encoding.drop 1 = k.val) ∧
    (∀ sa : InetSocketAddr, sa.to_uniform_encoding.length = 35) ∧
    (∀ e : InetSocketAddrExt, e.to_uniform_encoding.length = 36) := by
  refine ⟨fun a => ⟨a.to_uniform_encoding_length, rfl⟩, ?_, ?_, ?_, ?_, ?_, ?_⟩
  · intro a
    refine ⟨rfl, ?_, ?_⟩
    · show (List.replicate 28 (0 : Byte) ++ a.val).drop 28 = a.val
      exact List.drop_left' (by simp)
    · show (List.replicate 28 (0 : Byte) ++ a.val).take 28
          = List.replicate 28 (0 : Byte)
      exact List.take_left' (by simp)
  · intro a
    refine ⟨rfl, ?_, ?_⟩
    · show (List.replicate 16 (0 : Byte) ++ a.val).drop 16 = a.val
      exact List.drop_left' (by simp)
    · show (List.replicate 16 (0 : Byte) ++ a.val).take 16
          = List.replicate 16 (0 : Byte)
      exact List.take_left' (by simp)
  · intro o
    refine ⟨rfl, ?_, ?_⟩
    · show (List.replicate 22 (0 : Byte) ++ o.val).drop 22 = o.val
      exact List.drop_left' (by simp)
    · show (List.replicate 22 (0 : Byte) ++ o.val).take 22
          = List.replicate 22 (0 : Byte)
      exact List.take_left' (by simp)
  · exact fun k => ⟨rfl, rfl⟩
  · intro sa
    simp [InetSocketAddr.to_uniform_encoding, u16ToBeBytes,
      sa.address.to_uniform_encoding_length]
  · intro e
    simp [InetSocketAddrExt.to_uniform_encoding,
      InetSocketAddr.to_uniform_encoding, u16ToBeBytes,
      e.socket.address.to_uniform_encoding_length]

/-! ## Text parsing (`FromStr` implementations)

Rust strings are modelled as `List Char` (`Str`), so that `str::split(':')`
becomes a structurally recursive `splitOnChar` with the same semantics
(`n` separators yield `n + 1` pieces, empty pieces kept, the empty string
yields one empty piece).  The family parsers of external crates
(`std::net::IpAddr::from_str`, `torut`'s onion address parsers, and std's
`SocketAddrV4/V6::from_str` grammars) are taken as parameters or modelled
where the repository's control flow needs their shape. -/

/-- A Rust `String` / `&str`, as its character sequence. -/
abbrev Str := List Char

/-- `AddrParseError` (lines 76-97). -/
inductive AddrParseError
  /-- Wrong port number (`#[from(ParseIntError)]`) -/
  | wrongPortNumber
  /-- Unrecognizable IPv4/v6/Onion address string -/
  | wrongAddrFormat (s : Str)
  /-- Wrong socket address string -/
  | wrongSocketFormat (s : Str)
  /-- Wrong extended socket address string -/
  | wrongSocketExtFormat (s : Str)
  /-- Unknown transport protocol -/
  | unknownProtocolError (s : Str)
  /-- Library built without the `tor` feature -/
  | needsTorFeature
deriving DecidableEq

/-- Rust `str::split(sep)` collected into a list of pieces. -/
def splitOnChar (sep : Char) : Str → List Str
  | [] => [[]]
  | c :: rest =>
    let r := splitOnChar sep rest
    if c = sep then [] :: r
    else
      match r with
      | [] => [[c]]
      | piece :: more => (c :: piece) :: more

/-- `str::starts_with(c)` for a single character. -/
def startsWithChar (c : Char) : Str → Bool
  | [] => false
  | d :: _ => d = c

/-- `u16::from_str` (std): an optional leading `+`, then one or more decimal
digits; fails (`ParseIntError`) on empty digit strings, non-digit characters
and values above `u16::MAX`. -/
def u16FromStr (s : Str) : Option (Fin 65536) :=
  let digits := match s with
    | '+' :: rest => rest
    | _ => s
  if digits.isEmpty then none
  else if digits.all Char.isDigit then
    let v := digits.foldl (fun acc c => acc * 10 + (c.toNat - 48)) 0
    if h : v < 65536 then some ⟨v, h⟩ else none
  else none

/-- `std::net::IpAddr`. -/
inductive IpAddr
  | V4 (a : Ipv4Addr)
  | V6 (a : Ipv6Addr)
deriving DecidableEq

/-- `torut::onion::OnionAddressV3`: carries the v3 public key (its checksum
is derivable from the key, see the comment at `InetAddr` in the source). -/
structure OnionAddressV3 where
  /-- `OnionAddressV3::get_public_key` -/
  get_public_key : TorPublicKeyV3
deriving DecidableEq

/-- `impl From<IpAddr> for InetAddr` (lines 411-419). -/
def InetAddr.fromIpAddr : IpAddr → InetAddr
  | .V4 v4 => .IPv4 v4
  | .V6 v6 => .IPv6 v6

/-- `impl FromStr for InetAddr` (lines 464-488, `tor` feature enabled): the
three external family parsers (std `IpAddr::from_str`, torut
`OnionAddressV3::from_str`, torut `OnionAddressV2::from_str` — here the
parameters `pIp`, `pOnion3`, `pOnion2`) are all run on the input and the
triple of results is matched exactly as in the source: any two successes →
`WrongAddrFormat`; otherwise the single success wins (`From` conversions of
lines 411-457); no success → `WrongAddrFormat`. -/
def InetAddr.from_str (pIp : Str → Option IpAddr)
    (pOnion3 : Str → Option OnionAddressV3)
    (pOnion2 : Str → Option OnionAddressV2) (s : Str) :
    Except AddrParseError InetAddr :=
  match pIp s, pOnion3 s, pOnion2 s with
  | some _, some _, _ | some _, _, some _ | _, some _, some _ =>
      .error (.wrongAddrFormat s)
  | some ip_addr, _, _ => .ok (InetAddr.fromIpAddr ip_addr)
  | _, some onionv3, _ => .ok (.Tor onionv3.get_public_key)
  | _, _, some onionv2 => .ok (.TorV2 onionv2)
  | _, _, _ => .error (.wrongAddrFormat s)

/-- Modelled behavior of std's `SocketAddrV6::from_str` (external): the
accepted textual form is `[` ipv6 `]` `:` port, so the input must begin with
`[`; the text between the brackets is parsed by std's IPv6 address grammar
(parameter `pV6`) and the text after `]:` by the `u16` grammar.  Any input
not beginning with `[` is rejected without consulting `pV6`. -/
def socketAddrV6FromStr (pV6 : Str → Option Ipv6Addr) (s : Str) :
    Option (Ipv6Addr × Fin 65536) :=
  match s with
  | d :: rest =>
    if d = '[' then
      match splitOnChar ']' rest with
      | [inner, after] =>
        match after with
        | a :: portText =>
          if a = ':' then
            match pV6 inner, u16FromStr portText with
            | some ip, some port => some (ip, port)
            | _, _ => none
          else none
        | [] => none
      | _ => none
    else none
  | [] => none

/-- Modelled behavior of std's `SocketAddrV4::from_str` (external): the
accepted form is `a.b.c.d` `:` port, with the dotted-quad text parsed by
std's IPv4 grammar (parameter `pV4`).  An IPv4 text contains no `:`, so the
input must split on `:` into exactly two pieces. -/
def socketAddrV4FromStr (pV4 : Str → Option Ipv4Addr) (s : Str) :
    Option (Ipv4Addr × Fin 65536) :=
  match splitOnChar ':' s with
  | [addr, port] =>
    match pV4 addr, u16FromStr port with
    | some ip, some p => some (ip, p)
    | _, _ => none
  | _ => none

/-- `impl FromStr for InetSocketAddr` (lines 763-796, `tor` feature enabled):
first try std's `SocketAddrV6::from_str`, then `SocketAddrV4::from_str`
(parameters `pSockV6`, `pSockV4`); if both fail, split the input on `:` and
match the first three pieces as the source does: exactly two pieces →
address text and port text; exactly one piece → bare address with port 0;
anything else → `WrongSocketFormat`.  The port text is parsed by
`u16::from_str`, whose `ParseIntError` maps to `WrongPortNumber`
(`#[from(ParseIntError)]`, line 78). -/
def InetSocketAddr.from_str
    (pSockV6 : Str → Option (Ipv6Addr × Fin 65536))
    (pSockV4 : Str → Option (Ipv4Addr × Fin 65536))
    (pIp : Str → Option IpAddr)
    (pOnion3 : Str → Option OnionAddressV3)
    (pOnion2 : Str → Option OnionAddressV2)
    (s : Str) : Except AddrParseError InetSocketAddr :=
  match pSockV6 s with
  | some (ip, port) => .ok (InetSocketAddr.new (.IPv6 ip) port)
  | none =>
    match pSockV4 s with
    | some (ip, port) => .ok (InetSocketAddr.new (.IPv4 ip) port)
    | none =>
      match splitOnChar ':' s with
      | [addr, port] =>
        match InetAddr.from_str pIp pOnion3 pOnion2 addr with
        | .error e => .error e
        | .ok a =>
          match u16FromStr port with
          | none => .error .wrongPortNumber
          | some p => .ok ⟨a, p⟩
      | [addr] =>
        match InetAddr.from_str pIp pOnion3 pOnion2 addr with
        | .error e => .error e
        | .ok a => .ok ⟨a, 0⟩
      | _ => .error (.wrongSocketFormat s)

/-- **C7** — Parse ambiguity: for every input string valid as more than one
address family simultaneously (any two of the three family parsers succeed),
`InetAddr::from_str` returns `WrongAddrFormat` rather than choosing one
family; for a string valid as exactly one family it returns that family's
address. -/
theorem claim_C7_parse_ambiguity (pIp : Str → Option IpAddr)
    (pOnion3 : Str → Option OnionAddressV3)
    (pOnion2 : Str → Option OnionAddressV2) (s : Str) :
    (((pIp s).isSome = true ∧ (pOnion3 s).isSome = true) ∨
     ((pIp s).isSome = true ∧ (pOnion2 s).isSome = true) ∨
     ((pOnion3 s).isSome = true ∧ (pOnion2 s).isSome = true) →
        InetAddr.from_str pIp pOnion3 pOnion2 s
          = .error (.wrongAddrFormat s)) ∧
    (∀ ip, pIp s = some ip → pOnion3 s = none → pOnion2 s = none →
        InetAddr.from_str pIp pOnion3 pOnion2 s
          = .ok (InetAddr.fromIpAddr ip)) ∧
    (∀ o3, pIp s = none → pOnion3 s = some o3 → pOnion2 s = none →
        InetAddr.from_str pIp pOnion3 pOnion2 s
          = .ok (.Tor o3.get_public_key)) ∧
    (∀ o2, pIp s = none → pOnion3 s = none → pOnion2 s = some o2 →
        InetAddr.from_str pIp pOnion3 pOnion2 s = .ok (.TorV2 o2)) := by
  cases hIp : pIp s <;> cases h3 : pOnion3 s <;> cases h2 : pOnion2 s <;>
    simp_all [InetAddr.from_str]

/-- Witness for C7: with family parsers recognizing the input as both an IP
and an onion-v3 address, parsing fails; with only the IP parser succeeding,
the IP address is returned. -/
theorem claim_C7_parse_ambiguity_witness :
    (InetAddr.from_str
        (fun _ => some (.V4 ⟨List.replicate 4 (0 : Byte), by simp⟩))
        (fun _ => some ⟨⟨List.replicate 32 (0 : Byte), by simp⟩⟩)
        (fun _ => none) "1.2.3.4".toList
      = .error (.wrongAddrFormat "1.2.3.4".toList)) ∧
    (InetAddr.from_str
        (fun _ => some (.V4 ⟨List.replicate 4 (0 : Byte), by simp⟩))
        (fun _ => none) (fun _ => none) "1.2.3.4".toList
      = .ok (InetAddr.fromIpAddr (.V4 ⟨List.replicate 4 (0 : Byte), by simp⟩))) :=
  ⟨(claim_C7_parse_ambiguity _ _ _ _).1 (Or.inl ⟨rfl, rfl⟩),
   (claim_C7_parse_ambiguity _ _ _ _).2.1 _ rfl rfl rfl⟩

/-- **C8** (counterexample) — the claim says `InetSocketAddr::from_str`
accepts a bare address of any family, including a bare IPv6 address, with
the port defaulting to 0.  On the input `::1` the std socket parsers fail
(no `[` bracket, more than one `:`), and the fallback splits the input on
`:` into the three pieces `["", "", "1"]`, which matches neither the
one-piece nor the two-piece pattern — so parsing returns
`WrongSocketFormat`, even though every family parser here recognizes `::1`
as a valid IPv6 address (none of them is ever consulted on this input). -/
theorem claim_C8_bare_ipv6_rejected :
    InetSocketAddr.from_str
      (socketAddrV6FromStr (fun t =>
        if t = "::1".toList
        then some ⟨List.replicate 15 (0 : Byte) ++ [(1 : Byte)], by simp⟩
        else none))
      (socketAddrV4FromStr (fun _ => none))
      (fun t =>
        if t = "::1".toList
        then some (.V6 ⟨List.replicate 15 (0 : Byte) ++ [(1 : Byte)], by simp⟩)
        else none)
      (fun _ => none) (fun _ => none)
      "::1".toList = .error (.wrongSocketFormat "::1".toList) := by rfl

/-- **C8** (amended) — Socket-address text parsing: `InetSocketAddr::from_str`
accepts bracketed IPv6 with a port (std `SocketAddrV6` form), accepts
`<ipv4>:<port>` (std `SocketAddrV4` form), accepts `<addr>:<port>` for
colon-free address texts, and accepts a bare address whose text contains no
`:` with the port defaulting to 0; but a bare IPv6 address is REJECTED with
`WrongSocketFormat`: its text has at least two `:` (and no brackets), so it
misses the std socket forms and splits into three or more pieces. -/
theorem claim_C8_socket_parsing_amended
    (pSockV6 : Str → Option (Ipv6Addr × Fin 65536))
    (pSockV4 : Str → Option (Ipv4Addr × Fin 65536))
    (pIp : Str → Option IpAddr) (pOnion3 : Str → Option OnionAddressV3)
    (pOnion2 : Str → Option OnionAddressV2) (s : Str) :
    (∀ ip port, pSockV6 s = some (ip, port) →
        InetSocketAddr.from_str pSockV6 pSockV4 pIp pOnion3 pOnion2 s
          = .ok (InetSocketAddr.new (.IPv6 ip) port)) ∧
    (∀ ip port, pSockV6 s = none → pSockV4 s = some (ip, port) →
        InetSocketAddr.from_str pSockV6 pSockV4 pIp pOnion3 pOnion2 s
          = .ok (InetSocketAddr.new (.IPv4 ip) port)) ∧
    (∀ addr a, pSockV6 s = none → pSockV4 s = none →
        splitOnChar ':' s = [addr] →
        InetAddr.from_str pIp pOnion3 pOnion2 addr = .ok a →
        InetSocketAddr.from_str pSockV6 pSockV4 pIp pOnion3 pOnion2 s
          = .ok ⟨a, 0⟩) ∧
    (∀ addr port a p, pSockV6 s = none → pSockV4 s = none →
        splitOnChar ':' s = [addr, port] →
        InetAddr.from_str pIp pOnion3 pOnion2 addr = .ok a →
        u16FromStr port = some p →
        InetSocketAddr.from_str pSockV6 pSockV4 pIp pOnion3 pOnion2 s
          = .ok ⟨a, p⟩) ∧
    (pSockV6 s = none → pSockV4 s = none →
        3 ≤ (splitOnChar ':' s).length →
        InetSocketAddr.from_str pSockV6 pSockV4 pIp pOnion3 pOnion2 s
          = .error (.wrongSocketFormat s)) ∧
    (∀ pV6, startsWithChar '[' s = false → socketAddrV6FromStr pV6 s = none) := by
  refine ⟨?_, ?_, ?_, ?_, ?_, ?_⟩
  · intro ip port h6
    simp [InetSocketAddr.from_str, h6]
  · intro ip port h6 h4
    simp [InetSocketAddr.from_str, h6, h4]
  · intro addr a h6 h4 hsplit hparse
    simp [InetSocketAddr.from_str, h6, h4, hsplit, hparse]
  · intro addr port a p h6 h4 hsplit hparse hport
    simp [InetSocketAddr.from_str, h6, h4, hsplit, hparse, hport]
  · intro h6 h4 hlen
    match hsplit : splitOnChar ':' s with
    | [] | [_] | [_, _] =>
      rw [hsplit] at hlen
      simp at hlen
    | x :: y :: z :: rest => simp [InetSocketAddr.from_str, h6, h4, hsplit]
  · intro pV6 hstart
    match s with
    | [] => rfl
    | d :: rest =>
      have hd : ¬ d = '[' := by simpa [startsWithChar] using hstart
      simp [socketAddrV6FromStr, hd]

/-- Witness for C8 (amended): with a std v6 socket parser recognizing
`[::1]:80`, `from_str` returns the v6 address with port 80; and the modelled
std `SocketAddrV6` parser rejects the bracket-free `::1`. -/
theorem claim_C8_socket_parsing_amended_witness :
    (InetSocketAddr.from_str
        (fun _ => some (⟨List.replicate 15 (0 : Byte) ++ [(1 : Byte)], by simp⟩,
          (80 : Fin 65536)))
        (fun _ => none) (fun _ => none) (fun _ => none) (fun _ => none)
        "[::1]:80".toList
      = .ok (InetSocketAddr.new
          (.IPv6 ⟨List.replicate 15 (0 : Byte) ++ [(1 : Byte)], by simp⟩)
          (80 : Fin 65536))) ∧
    (socketAddrV6FromStr (fun _ => none) "::1".toList = none) :=
  ⟨(claim_C8_socket_parsing_amended _ _ _ _ _ _).1 _ _ rfl,
   (claim_C8_socket_parsing_amended (fun _ => none) (fun _ => none)
      (fun _ => none) (fun _ => none) (fun _ => none) "::1".toList).2.2.2.2.2
      _ rfl⟩

/-- **C9** — `to_ipv4` equals `to_ipv6`: the two bodies are identical, so for
every address the results agree — `some` of the IPv6-mapped form for an IPv4
address, `some` of the address itself for an IPv6 address, `none` for both
Tor cases; `to_ipv4` never returns a raw 4-byte value (its result type is
`Option Ipv6Addr`). -/
theorem claim_C9_to_ipv4_eq_to_ipv6 :
    (∀ a : InetAddr, a.to_ipv4 = a.to_ipv6) ∧
    (∀ a : Ipv4Addr, (InetAddr.IPv4 a).to_ipv4 = some (InetAddr.ipv6Mapped a)) ∧
    (∀ a : Ipv6Addr, (InetAddr.IPv6 a).to_ipv4 = some a) ∧
    (∀ o : OnionAddressV2, (InetAddr.TorV2 o).to_ipv4 = none) ∧
    (∀ k : TorPublicKeyV3, (InetAddr.Tor k).to_ipv4 = none) := by
  refine ⟨fun a => ?_, fun _ => rfl, fun _ => rfl, fun _ => rfl, fun _ => rfl⟩
  cases a <;> rfl

/-! ## ESB controller and send facade (`src/services/src/esb.rs`)

The controller is generic over a bus-identifier type `B` (Rust `B: BusId`),
a request type `R` (Rust `R: Request`) and a handler type `H`.  Service
addresses must convert losslessly to and from byte sequences and are
compared byte-for-byte, so they are modelled directly as byte strings.
The request codec (`Encode::encode`, `Unmarshaller::unmarshall`) and the
user handler's two entry points are parameters of the operations, mirroring
the trait methods the Rust code calls.  The zmq transport is an external
collaborator: a session is modelled by its observable frame queues plus the
transport's disposition to fail a send. -/

/-- A `ServiceAddress` value, as its byte sequence. -/
abbrev ServiceAddr := Bytes

/-- `transport::Error` (external lnpbp crate), abstracted by a code. -/
structure TransportError where
  /-- the code of the error -/
  code : Nat
deriving DecidableEq

/-- `presentation::Error` (external lnpbp crate): it either wraps a
transport error (variant `presentation::Error::Transport`) or is some other
presentation-level failure, abstracted by a code. -/
inductive PresentationError
  /-- `presentation::Error::Transport` -/
  | transport (e : TransportError)
  /-- any other presentation error -/
  | other (code : Nat)
deriving DecidableEq

/-- `esb::Error` (lines 41-57). -/
inductive EsbError
  /-- Unexpected server response -/
  | unexpectedServerResponse
  /-- Message serialization or structure error -/
  | presentation (e : PresentationError)
  /-- Transport-level protocol error -/
  | transport (e : TransportError)
  /-- The provided service bus id is unknown -/
  | unknownBusId (id : Str)
  /-- Service-defined error -/
  | serviceError (msg : Str)
deriving DecidableEq

/-- `impl From<presentation::Error> for Error` (lines 65-72): a presentation
error that wraps a transport error becomes `Error::Transport`; anything else
becomes `Error::Presentation`. -/
def EsbError.fromPresentation : PresentationError → EsbError
  | .transport e => .transport e
  | e => .presentation e

/-- A routed frame (`zmqsocket` routed message of the external lnpbp crate):
source identity, destination identity, body. -/
structure RoutedFrame where
  /-- source identity -/
  src : ServiceAddr
  /-- destination identity -/
  dst : ServiceAddr
  /-- message body -/
  msg : Bytes
deriving DecidableEq

/-- `session::Raw<NoEncryption, zmqsocket::Connection>` (external lnpbp
crate), modelled by its observable behavior: the queue of incoming routed
frames, the queue of emitted routed frames, and the transport's disposition
to fail the next send. -/
structure Session where
  /-- frames waiting to be received on this socket -/
  inbox : List RoutedFrame
  /-- frames this socket has emitted -/
  outbox : List RoutedFrame
  /-- when `some e`, the transport fails a `send_routed_message` with `e` -/
  sendErr : Option TransportError
deriving DecidableEq

/-- `session::Raw::send_routed_message(source, dest, msg)` (external lnpbp):
emits a routed frame carrying the given source and destination identities,
or fails with the transport's error. -/
def Session.send_routed_message (sess : Session) (source : ServiceAddr)
    (dest : ServiceAddr) (msg : Bytes) : Except TransportError Session :=
  match sess.sendErr with
  | some e => .error e
  | none => .ok { sess with outbox := sess.outbox ++ [⟨source, dest, msg⟩] }

/-- `session::Raw::recv_routed_message` (external lnpbp): takes the next
queued incoming frame; `none` models the blocking case (no frame queued),
which the poll-gated run loop never hits. -/
def Session.recv_routed_message (sess : Session) :
    Option (RoutedFrame × Session) :=
  match sess.inbox with
  | [] => none
  | f :: rest => some (f, { sess with inbox := rest })

/-- `HashMap::get` on the bus map, modelled on an association list. -/
def lookupBus {B : Type} [DecidableEq B] :
    List (B × Session) → B → Option Session
  | [], _ => none
  | (b, sess) :: rest, bus => if b = bus then some sess else lookupBus rest bus

/-- In-place mutation of one bus's session (`get_mut` + writes through the
reference), modelled as updating the association list at the key. -/
def updateBus {B : Type} [DecidableEq B] :
    List (B × Session) → B → Session → List (B × Session)
  | [], _, _ => []
  | (b, old) :: rest, bus, sess =>
    if b = bus then (b, sess) :: rest else (b, old) :: updateBus rest bus sess

/-- `Senders<B>` (lines 97-104): the owned bus sessions and the `router`
byte string. -/
structure Senders (B : Type) where
  /-- the bus map (`sessions: HashMap<B, session::Raw<..>>`) -/
  sessions : List (B × Session)
  /-- the `router: Vec<u8>` field -/
  router : ServiceAddr
deriving DecidableEq

/-- `Senders::send_to` (lines 110-133): encode the request
(`request.encode()?`, errors converted through `From<presentation::Error>`),
look the bus up (`ok_or(Error::UnknownBusId(bus_id.to_string()))?`, with
`busName` modelling `Display` on `B`), then
`session.send_routed_message(self.router.as_ref(), dest.as_ref(), &data)?`.
Mirroring `&mut self`, the result carries the updated state (unchanged
whenever an error is returned) alongside the optional error. -/
def Senders.send_to {B R : Type} [DecidableEq B] (busName : B → Str)
    (encode : R → Except PresentationError Bytes) (ss : Senders B)
    (bus_id : B) (dest : ServiceAddr) (request : R) :
    Senders B × Option EsbError :=
  match encode request with
  | .error e => (ss, some (EsbError.fromPresentation e))
  | .ok data =>
    match lookupBus ss.sessions bus_id with
    | none => (ss, some (.unknownBusId (busName bus_id)))
    | some sess =>
      match sess.send_routed_message ss.router dest data with
      | .error e => (ss, some (.transport e))
      | .ok sess' =>
        ({ ss with sessions := updateBus ss.sessions bus_id sess' }, none)

/-- `Controller<B, R, H>` (lines 135-146).  The unmarshaller
(`R::create_unmarshaller()`) is stateless and appears as the `unmarshall`
parameter of the operations that use it. -/
structure Controller (B R H : Type) where
  /-- the controller's own identity -/
  identity : ServiceAddr
  /-- the send facade -/
  senders : Senders B
  /-- the user-supplied handler state -/
  handler : H
deriving DecidableEq

/-- `Controller::init` (lines 155-200): builds one session per bus entry
(socket construction from a `Carrier` is external zmq I/O; the model takes
the constructed sessions), stores the `router` argument — converted to
bytes — in `Senders.router`, and the `identity` argument in the controller. -/
def Controller.init {B H : Type} (R : Type) (identity : ServiceAddr)
    (service_bus : List (B × Session)) (router : ServiceAddr) (handler : H) :
    Controller B R H :=
  { identity := identity
    senders := { sessions := service_bus, router := router }
    handler := handler }

/-- `Controller::send_to` (lines 202-209): delegates to `Senders::send_to`. -/
def Controller.send_to {B R H : Type} [DecidableEq B] (busName : B → Str)
    (encode : R → Except PresentationError Bytes) (c : Controller B R H)
    (endpoint : B) (dest : ServiceAddr) (request : R) :
    Controller B R H × Option EsbError :=
  let (ss, r) := Senders.send_to busName encode c.senders endpoint dest request
  ({ c with senders := ss }, r)

/-- The ready set of one poll cycle (lines 243-271): the buses whose socket
reports an event, in map order.  In the model a socket is readable exactly
when a frame is queued. -/
def readyBuses {B : Type} (sessions : List (B × Session)) : List B :=
  (sessions.filter (fun bs => !bs.2.inbox.isEmpty)).map Prod.fst

/-- One iteration of the `for bus_id in service_buses` body of
`Controller::run` (lines 273-302): receive the routed frame, unmarshall the
body (`?` conversion through `From<presentation::Error>`), then either
dispatch to `handler.handle` (destination equals the controller's identity)
or forward with `senders.send_to` on the same bus with the original
destination.  `handle` models `Handler::handle` (mutating the handler state
and the senders it borrows, its error already converted through
`Error: From<H::Error>`).  The two `none` fallbacks mirror code paths that
the poll gate makes unreachable (`.expect("must exist, just indexed")` and
the blocking receive). -/
def Controller.processBus {B R H : Type} [DecidableEq B] (busName : B → Str)
    (encode : R → Except PresentationError Bytes)
    (unmarshall : Bytes → Except PresentationError R)
    (handle : H → Senders B → B → ServiceAddr → R →
      H × Senders B × Option EsbError)
    (c : Controller B R H) (bus_id : B) :
    Controller B R H × Option EsbError :=
  match lookupBus c.senders.sessions bus_id with
  | none => (c, none)
  | some sess =>
    match sess.recv_routed_message with
    | none => (c, none)
    | some (routed_frame, sess') =>
      let c1 : Controller B R H :=
        { c with senders :=
          { c.senders with
            sessions := updateBus c.senders.sessions bus_id sess' } }
      match unmarshall routed_frame.msg with
      | .error e => (c1, some (EsbError.fromPresentation e))
      | .ok request =>
        let source := routed_frame.src
        let dest := routed_frame.dst
        if dest = c1.identity then
          let (h', ss', r) := handle c1.handler c1.senders bus_id source request
          ({ c1 with handler := h', senders := ss' }, r)
        else
          let (ss', r) :=
            Senders.send_to busName encode c1.senders bus_id dest request
          ({ c1 with senders := ss' }, r)

/-- The `for` loop of `Controller::run` over the ready buses: each `?` in
the body aborts the remaining iterations with the error. -/
def Controller.runBuses {B R H : Type} [DecidableEq B] (busName : B → Str)
    (encode : R → Except PresentationError Bytes)
    (unmarshall : Bytes → Except PresentationError R)
    (handle : H → Senders B → B → ServiceAddr → R →
      H × Senders B × Option EsbError)
    (c : Controller B R H) : List B → Controller B R H × Option EsbError
  | [] => (c, none)
  | bus_id :: rest =>
    match Controller.processBus busName encode unmarshall handle c bus_id with
    | (c', none) =>
      Controller.runBuses busName encode unmarshall handle c' rest
    | (c', some e) => (c', some e)

/-- `Controller::run` (lines 242-305): one poll cycle — poll all owned
sockets, then process one frame from every ready bus in order. -/
def Controller.run {B R H : Type} [DecidableEq B] (busName : B → Str)
    (encode : R → Except PresentationError Bytes)
    (unmarshall : Bytes → Except PresentationError R)
    (handle : H → Senders B → B → ServiceAddr → R →
      H × Senders B × Option EsbError)
    (c : Controller B R H) : Controller B R H × Option EsbError :=
  Controller.runBuses busName encode unmarshall handle c
    (readyBuses c.senders.sessions)

/-- `Controller::try_run_loop` (lines 222-233), indexed by fuel since the
Rust loop is infinite: each cycle calls `run`; an `Ok` cycle just continues;
an `Err(err)` cycle calls `self.handler.handle_err(err)?` — when `handle_err`
returns `Ok` the loop continues with the updated handler, and when it
returns `Err(e)` the loop terminates returning `e`.  A `none` result means
the loop is still running after `fuel` cycles. -/
def Controller.try_run_loop {B R H : Type} [DecidableEq B] (busName : B → Str)
    (encode : R → Except PresentationError Bytes)
    (unmarshall : Bytes → Except PresentationError R)
    (handle : H → Senders B → B → ServiceAddr → R →
      H × Senders B × Option EsbError)
    (handleErr : H → EsbError → H × Option EsbError) :
    Nat → Controller B R H → Option EsbError
  | 0, _ => none
  | fuel + 1, c =>
    match Controller.run busName encode unmarshall handle c with
    | (c', none) =>
      Controller.try_run_loop busName encode unmarshall handle handleErr fuel c'
    | (c', some err) =>
      match handleErr c'.handler err with
      | (h', none) =>
        Controller.try_run_loop busName encode unmarshall handle handleErr
          fuel { c' with handler := h' }
      | (_, some e) => some e

/-! ### Bus-map lemmas -/

theorem lookupBus_updateBus_self {B : Type} [DecidableEq B]
    (m : List (B × Session)) (b : B) (s s' : Session)
    (h : lookupBus m b = some s) : lookupBus (updateBus m b s') b = some s' := by
  induction m with
  | nil => simp [lookupBus] at h
  | cons kv rest ih =>
    obtain ⟨k, old⟩ := kv
    by_cases hk : k = b
    · simp [lookupBus, updateBus, hk]
    · simp [lookupBus, updateBus, hk] at h ⊢
      exact ih h

theorem lookupBus_updateBus_ne {B : Type} [DecidableEq B]
    (m : List (B × Session)) (b b' : B) (s : Session) (h : b' ≠ b) :
    lookupBus (updateBus m b s) b' = lookupBus m b' := by
  induction m with
  | nil => simp [updateBus]
  | cons kv rest ih =>
    obtain ⟨k, old⟩ := kv
    by_cases hk : k = b
    · subst hk
      simp [lookupBus, updateBus, Ne.symm h]
    · simp [lookupBus, updateBus, hk]
      by_cases hk' : k = b'
      · simp [hk']
      · simp [hk', ih]

theorem updateBus_updateBus {B : Type} [DecidableEq B]
    (m : List (B × Session)) (b : B) (s t : Session) :
    updateBus (updateBus m b s) b t = updateBus m b t := by
  induction m with
  | nil => simp [updateBus]
  | cons kv rest ih =>
    obtain ⟨k, old⟩ := kv
    by_cases hk : k = b
    · simp [updateBus, hk]
    · simp [updateBus, hk, ih]

/-! ### Claims on the ESB -/

/-- **C3** (counterexample) — the claim says every frame emitted through
`Senders::send_to` carries the controller's identity as its wire source.
Build a controller with `identity = [0]` and `router = [1]` (two distinct
`init` arguments) and send on bus 0: the emitted frame carries source `[1]`
— the router argument — and not the identity `[0]`. -/
theorem claim_C3_counterexample :
    (Controller.send_to (fun _ : Nat => []) (fun _ : Unit => .ok [])
        (Controller.init Unit [0] [(0, ⟨[], [], none⟩)] [1] ()) 0 [2] ())
      = (⟨[0], ⟨[(0, ⟨[], [⟨[1], [2], []⟩], none⟩)], [1]⟩, ()⟩, none)
    ∧ ¬ (([1] : ServiceAddr) = [0]) := by
  exact ⟨rfl, by decide⟩

/-- **C3** (amended) — Send identity: every routed frame emitted through
`Senders::send_to` carries as its wire source identity the `router` byte
string stored inside `Senders` — which `Controller::init` sets from its
separate `router` argument, not from `identity`; the emitted source equals
the controller's identity only when the caller passes the same value for
both arguments. -/
theorem claim_C3_send_source_is_router {B R H : Type} [DecidableEq B]
    (busName : B → Str) (encode : R → Except PresentationError Bytes)
    (ss : Senders B) (bus_id : B) (dest : ServiceAddr) (request : R)
    (data : Bytes) (sess : Session)
    (henc : encode request = .ok data)
    (hbus : lookupBus ss.sessions bus_id = some sess)
    (hsend : sess.sendErr = none) :
    Senders.send_to busName encode ss bus_id dest request
      = (Senders.mk
          (updateBus ss.sessions bus_id
            (Session.mk sess.inbox (sess.outbox ++ [⟨ss.router, dest, data⟩])
              sess.sendErr))
          ss.router,
         none)
    ∧ ∀ (identity router : ServiceAddr) (sb : List (B × Session)) (h : H),
        (Controller.init R identity sb router h).senders.router = router
        ∧ (Controller.init R identity sb router h).identity = identity := by
  refine ⟨?_, fun _ _ _ _ => ⟨rfl, rfl⟩⟩
  simp [Senders.send_to, henc, hbus, Session.send_routed_message, hsend]

/-- Witness for C3 (amended): a concrete send on an owned bus appends
exactly one frame whose source is the `router` field `[1]`. -/
theorem claim_C3_send_source_is_router_witness :
    Senders.send_to (B := Nat) (R := Unit) (fun _ => []) (fun _ => .ok [])
        ⟨[(0, ⟨[], [], none⟩)], [1]⟩ 0 [2] ()
      = (⟨[(0, ⟨[], [⟨[1], [2], []⟩], none⟩)], [1]⟩, none) :=
  (claim_C3_send_source_is_router (H := Unit) (fun _ => []) (fun _ => .ok [])
    ⟨[(0, ⟨[], [], none⟩)], [1]⟩ 0 [2] () [] ⟨[], [], none⟩ rfl (by decide) rfl).1

/-- **C4** (counterexample) — the claim says a forwarded frame's body is
byte-identical to the received body.  The code forwards the *re-encoding of
the decoded request* (`unmarshall` then `encode`), not the received bytes.
With a legitimate codec satisfying `unmarshall (encode r) = .ok r` — here
`encode r = [r]`, with `unmarshall` also tolerating a padding zero — a
frame with body `[5, 0]` and a non-local destination is forwarded with body
`[5]`, which differs from the received body. -/
theorem claim_C4_counterexample :
    (Controller.run (fun _ : Nat => []) (fun r : Fin 256 => .ok [r])
        (fun msg => match msg with
          | [r] => .ok r
          | [r, z] => if z = 0 then .ok r else .error (.other 0)
          | _ => .error (.other 0))
        (fun h ss _ _ _ => (h, ss, none))
        ⟨[0], ⟨[(0, ⟨[⟨[7], [9], [5, 0]⟩], [], none⟩)], [1]⟩, ()⟩)
      = (⟨[0], ⟨[(0, ⟨[], [⟨[1], [9], [5]⟩], none⟩)], [1]⟩, ()⟩, none)
    ∧ ¬ (([5] : Bytes) = [5, 0]) := by
  exact ⟨rfl, by decide⟩

/-- **C4** (amended) — Local-vs-forward dispatch, for a frame at the head of
bus `bus_id`'s queue whose body decodes: if its destination equals the
controller's identity byte-for-byte, `handler.handle` is invoked exactly
once with (the senders after consuming the frame, the same bus, the frame
source, the decoded request) and the cycle's outcome is exactly the
handler's output — no frame is emitted unless the handler emits it; if the
destination differs and the transport accepts the send, `handle` is not
invoked and exactly one frame is emitted on the same bus carrying the
original destination and the *re-encoding* of the decoded request as body —
byte-identical to the received body whenever the codec re-encodes the
decoded request to the received bytes — and every bus other than `bus_id`
is left untouched. -/
theorem claim_C4_local_vs_forward {B R H : Type} [DecidableEq B]
    (busName : B → Str) (encode : R → Except PresentationError Bytes)
    (unmarshall : Bytes → Except PresentationError R)
    (handle : H → Senders B → B → ServiceAddr → R →
      H × Senders B × Option EsbError)
    (c : Controller B R H) (bus_id : B) (sess : Session) (frame : RoutedFrame)
    (restIn : List RoutedFrame) (request : R)
    (hbus : lookupBus c.senders.sessions bus_id = some sess)
    (hinbox : sess.inbox = frame :: restIn)
    (hdec : unmarshall frame.msg = .ok request) :
    (∀ h' ss' r, frame.dst = c.identity →
        handle c.handler
          (Senders.mk
            (updateBus c.senders.sessions bus_id
              (Session.mk restIn sess.outbox sess.sendErr))
            c.senders.router)
          bus_id frame.src request = (h', ss', r) →
        Controller.processBus busName encode unmarshall handle c bus_id
          = (Controller.mk c.identity ss' h', r)) ∧
    (∀ data, ¬ frame.dst = c.identity → encode request = .ok data →
        sess.sendErr = none →
        Controller.processBus busName encode unmarshall handle c bus_id
          = (Controller.mk c.identity
              (Senders.mk
                (updateBus c.senders.sessions bus_id
                  (Session.mk restIn
                    (sess.outbox ++
                      [RoutedFrame.mk c.senders.router frame.dst data])
                    none))
                c.senders.router)
              c.handler,
             none)) ∧
    (¬ frame.dst = c.identity → encode request = .ok frame.msg →
        sess.sendErr = none →
        lookupBus
          (Controller.processBus busName encode unmarshall handle c
            bus_id).1.senders.sessions bus_id
          = some (Session.mk restIn
              (sess.outbox ++
                [RoutedFrame.mk c.senders.router frame.dst frame.msg])
              none)) ∧
    (∀ data, ¬ frame.dst = c.identity → encode request = .ok data →
        sess.sendErr = none →
        ∀ b', b' ≠ bus_id →
          lookupBus
            (Controller.processBus busName encode unmarshall handle c
              bus_id).1.senders.sessions b'
            = lookupBus c.senders.sessions b') := by
  have hrecv : sess.recv_routed_message
      = some (frame, Session.mk restIn sess.outbox sess.sendErr) := by
    simp [Session.recv_routed_message, hinbox]
  have hforward : ∀ data, ¬ frame.dst = c.identity → encode request = .ok data →
      sess.sendErr = none →
      Controller.processBus busName encode unmarshall handle c bus_id
        = (Controller.mk c.identity
            (Senders.mk
              (updateBus c.senders.sessions bus_id
                (Session.mk restIn
                  (sess.outbox ++
                    [RoutedFrame.mk c.senders.router frame.dst data])
                  none))
              c.senders.router)
            c.handler,
           none) := by
    intro data hne henc hse
    simp only [Controller.processBus, hbus, hrecv, hdec]
    simp only [Senders.send_to, henc, Session.send_routed_message]
    rw [lookupBus_updateBus_self _ _ sess _ hbus]
    simp [hne, hse, updateBus_updateBus]
  refine ⟨?_, hforward, ?_, ?_⟩
  · intro h' ss' r hloc hhandle
    simp only [Controller.processBus, hbus, hrecv, hdec]
    simp [hloc, hhandle]
  · intro hne henc hse
    rw [hforward frame.msg hne henc hse]
    exact lookupBus_updateBus_self _ _ sess _ hbus
  · intro data hne henc hse b' hb'
    rw [hforward data hne henc hse]
    exact lookupBus_updateBus_ne _ _ _ _ hb'

/-- Witness for C4 (amended): a concrete controller with identity `[0]`
processing, on bus 0, a local frame (destination `[0]`) — the handler's
output is the outcome — and a forwarded frame (destination `[9]`, body
`[5]`, canonical codec `encode r = [r]`) — re-emitted on bus 0 with the
identical body. -/
theorem claim_C4_local_vs_forward_witness :
    (Controller.processBus (fun _ : Nat => []) (fun r : Fin 256 => .ok [r])
        (fun msg => match msg with
          | [r] => .ok r
          | _ => .error (.other 0))
        (fun h ss _ _ _ => (h, ss, none))
        ⟨[0], ⟨[(0, ⟨[⟨[7], [0], [5]⟩], [], none⟩)], [1]⟩, ()⟩ 0
      = (Controller.mk [0]
          (Senders.mk (updateBus [(0, ⟨[⟨[7], [0], [5]⟩], [], none⟩)] 0
            (Session.mk [] [] none)) [1])
          (), none)) ∧
    (Controller.processBus (fun _ : Nat => []) (fun r : Fin 256 => .ok [r])
        (fun msg => match msg with
          | [r] => .ok r
          | _ => .error (.other 0))
        (fun h ss _ _ _ => (h, ss, none))
        ⟨[0], ⟨[(0, ⟨[⟨[7], [9], [5]⟩], [], none⟩)], [1]⟩, ()⟩ 0
      = (Controller.mk [0]
          (Senders.mk
            (updateBus [(0, ⟨[⟨[7], [9], [5]⟩], [], none⟩)] 0
              (Session.mk [] [RoutedFrame.mk [1] [9] [5]] none))
            [1])
          (), none)) :=
  ⟨(claim_C4_local_vs_forward (fun _ => []) (fun r => .ok [r]) _ _
      ⟨[0], ⟨[(0, ⟨[⟨[7], [0], [5]⟩], [], none⟩)], [1]⟩, ()⟩ 0
      ⟨[⟨[7], [0], [5]⟩], [], none⟩ ⟨[7], [0], [5]⟩ [] 5
      (by decide) rfl rfl).1 () _ none rfl rfl,
   (claim_C4_local_vs_forward (fun _ => []) (fun r => .ok [r]) _ _
      ⟨[0], ⟨[(0, ⟨[⟨[7], [9], [5]⟩], [], none⟩)], [1]⟩, ()⟩ 0
      ⟨[⟨[7], [9], [5]⟩], [], none⟩ ⟨[7], [9], [5]⟩ [] 5
      (by decide) rfl rfl).2.1 [5] (by decide) rfl rfl⟩

/-- **C5** — Loop termination policy: the run loop never terminates while
`handle_err` keeps returning `Ok` (whatever transport, decode, send or
handler errors the cycles raise); when a cycle raises an error the loop
continues exactly through `handle_err`, and the loop terminates exactly
when `handle_err` returns an error, `try_run_loop` returning that error. -/
theorem claim_C5_loop_termination {B R H : Type} [DecidableEq B]
    (busName : B → Str) (encode : R → Except PresentationError Bytes)
    (unmarshall : Bytes → Except PresentationError R)
    (handle : H → Senders B → B → ServiceAddr → R →
      H × Senders B × Option EsbError)
    (handleErr : H → EsbError → H × Option EsbError) :
    (∀ fuel c, (∀ h e, (handleErr h e).2 = none) →
        Controller.try_run_loop busName encode unmarshall handle handleErr
          fuel c = none) ∧
    (∀ fuel c e,
        Controller.try_run_loop busName encode unmarshall handle handleErr
          fuel c = some e →
        ∃ h err h', handleErr h err = (h', some e)) ∧
    (∀ fuel c c',
        Controller.run busName encode unmarshall handle c = (c', none) →
        Controller.try_run_loop busName encode unmarshall handle handleErr
            (fuel + 1) c
          = Controller.try_run_loop busName encode unmarshall handle handleErr
              fuel c') ∧
    (∀ fuel c c' err h',
        Controller.run busName encode unmarshall handle c = (c', some err) →
        handleErr c'.handler err = (h', none) →
        Controller.try_run_loop busName encode unmarshall handle handleErr
            (fuel + 1) c
          = Controller.try_run_loop busName encode unmarshall handle handleErr
              fuel (Controller.mk c'.identity c'.senders h')) ∧
    (∀ fuel c c' err h' e,
        Controller.run busName encode unmarshall handle c = (c', some err) →
        handleErr c'.handler err = (h', some e) →
        Controller.try_run_loop busName encode unmarshall handle handleErr
            (fuel + 1) c = some e) := by
  refine ⟨?_, ?_, ?_, ?_, ?_⟩
  · intro fuel
    induction fuel with
    | zero => intro c hok; rfl
    | succ n ih =>
      intro c hok
      rcases hrun : Controller.run busName encode unmarshall handle c
        with ⟨c', r⟩
      cases r with
      | none =>
        simp only [Controller.try_run_loop, hrun]
        exact ih c' hok
      | some err =>
        rcases hhe : handleErr c'.handler err with ⟨h', o⟩
        have ho : o = none := by
          have := hok c'.handler err
          rw [hhe] at this
          exact this
        subst ho
        simp only [Controller.try_run_loop, hrun, hhe]
        exact ih _ hok
  · intro fuel
    induction fuel with
    | zero => intro c e h; exact absurd h (by simp [Controller.try_run_loop])
    | succ n ih =>
      intro c e h
      rcases hrun : Controller.run busName encode unmarshall handle c
        with ⟨c', r⟩
      cases r with
      | none =>
        simp only [Controller.try_run_loop, hrun] at h
        exact ih c' e h
      | some err =>
        rcases hhe : handleErr c'.handler err with ⟨h', o⟩
        cases o with
        | none =>
          simp only [Controller.try_run_loop, hrun, hhe] at h
          exact ih _ e h
        | some e' =>
          simp only [Controller.try_run_loop, hrun, hhe,
            Option.some.injEq] at h
          subst h
          exact ⟨c'.handler, err, h', hhe⟩
  · intro fuel c c' hrun
    simp only [Controller.try_run_loop, hrun]
  · intro fuel c c' err h' hrun hhe
    simp only [Controller.try_run_loop, hrun, hhe]
  · intro fuel c c' err h' e hrun hhe
    simp only [Controller.try_run_loop, hrun, hhe]

/-- Witness for C5: with an always-`Ok` `handle_err` the loop is still
running after three cycles; with an escalating `handle_err` and a bus whose
queued frame fails to decode, the loop terminates after one cycle with
exactly the decode error. -/
theorem claim_C5_loop_termination_witness :
    (Controller.try_run_loop (B := Nat) (R := Unit) (H := Unit) (fun _ => [])
        (fun _ => .ok []) (fun _ => .error (.other 3))
        (fun h ss _ _ _ => (h, ss, none)) (fun h _ => (h, none)) 3
        ⟨[0], ⟨[(0, ⟨[⟨[7], [0], [9]⟩], [], none⟩)], [1]⟩, ()⟩
      = none) ∧
    (Controller.try_run_loop (B := Nat) (R := Unit) (H := Unit) (fun _ => [])
        (fun _ => .ok []) (fun _ => .error (.other 3))
        (fun h ss _ _ _ => (h, ss, none)) (fun h e => (h, some e)) 1
        ⟨[0], ⟨[(0, ⟨[⟨[7], [0], [9]⟩], [], none⟩)], [1]⟩, ()⟩
      = some (.presentation (.other 3))) :=
  ⟨(claim_C5_loop_termination (fun _ => []) (fun _ => .ok [])
      (fun _ => .error (.other 3)) (fun h ss _ _ _ => (h, ss, none))
      (fun h _ => (h, none))).1 3
      ⟨[0], ⟨[(0, ⟨[⟨[7], [0], [9]⟩], [], none⟩)], [1]⟩, ()⟩
      (fun _ _ => rfl),
   (claim_C5_loop_termination (fun _ => []) (fun _ => .ok [])
      (fun _ => .error (.other 3)) (fun h ss _ _ _ => (h, ss, none))
      (fun h e => (h, some e))).2.2.2.2 0
      ⟨[0], ⟨[(0, ⟨[⟨[7], [0], [9]⟩], [], none⟩)], [1]⟩, ()⟩
      ⟨[0], ⟨[(0, ⟨[], [], none⟩)], [1]⟩, ()⟩
      (.presentation (.other 3)) () (.presentation (.other 3)) rfl rfl⟩

/-- **C6** (counterexample) — the claim says every `send_to` call on an
unknown bus returns `UnknownBusId`.  With a request whose encoding fails,
`request.encode()?` returns first: calling `send_to` on bus 0 of an empty
bus map yields `Presentation`, not `UnknownBusId`. -/
theorem claim_C6_counterexample :
    Senders.send_to (B := Nat) (fun _ => []) (fun _ : Unit => .error (.other 7))
        ⟨[], [1]⟩ 0 [2] ()
      = (⟨[], [1]⟩, some (.presentation (.other 7))) := rfl

/-- **C6** (amended) — Unknown bus error: for every `send_to` call whose
request encodes successfully and whose bus is not a key of the bus map, the
call returns `UnknownBusId` naming that bus (through `Display`) and leaves
the state — hence every socket — untouched; for every owned bus the
`UnknownBusId` error is never returned, whatever the request. -/
theorem claim_C6_unknown_bus {B R : Type} [DecidableEq B] (busName : B → Str)
    (encode : R → Except PresentationError Bytes) (ss : Senders B)
    (bus_id : B) (dest : ServiceAddr) (request : R) :
    (∀ data, encode request = .ok data →
        lookupBus ss.sessions bus_id = none →
        Senders.send_to busName encode ss bus_id dest request
          = (ss, some (.unknownBusId (busName bus_id)))) ∧
    (∀ sess, lookupBus ss.sessions bus_id = some sess →
        ∀ name, (Senders.send_to busName encode ss bus_id dest request).2
          ≠ some (.unknownBusId name)) := by
  constructor
  · intro data henc hbus
    simp [Senders.send_to, henc, hbus]
  · intro sess hbus name
    match henc : encode request with
    | .error e =>
      cases e <;> simp [Senders.send_to, henc, EsbError.fromPresentation]
    | .ok data =>
      match hse : sess.sendErr with
      | some e =>
        simp [Senders.send_to, henc, hbus, Session.send_routed_message, hse]
      | none =>
        simp [Senders.send_to, henc, hbus, Session.send_routed_message, hse]

/-- Witness for C6 (amended): a successfully encoding request sent on the
unknown bus 3 yields `UnknownBusId` naming bus 3; on the owned bus 0 the
result error is not `UnknownBusId`. -/
theorem claim_C6_unknown_bus_witness :
    (Senders.send_to (B := Nat) (fun n => [Char.ofNat (48 + n)])
        (fun _ : Unit => .ok []) ⟨[(0, ⟨[], [], none⟩)], [1]⟩ 3 [2] ()
      = (⟨[(0, ⟨[], [], none⟩)], [1]⟩,
         some (.unknownBusId [Char.ofNat 51]))) ∧
    (∀ name,
      (Senders.send_to (B := Nat) (fun n => [Char.ofNat (48 + n)])
        (fun _ : Unit => .ok []) ⟨[(0, ⟨[], [], none⟩)], [1]⟩ 0 [2] ()).2
      ≠ some (.unknownBusId name)) :=
  ⟨(claim_C6_unknown_bus (fun n => [Char.ofNat (48 + n)]) (fun _ => .ok [])
      ⟨[(0, ⟨[], [], none⟩)], [1]⟩ 3 [2] ()).1 [] rfl rfl,
   fun name =>
    (claim_C6_unknown_bus (fun n => [Char.ofNat (48 + n)]) (fun _ => .ok [])
      ⟨[(0, ⟨[], [], none⟩)], [1]⟩ 0 [2] ()).2 ⟨[], [], none⟩ rfl name⟩

/-- **C10** — Error precedence in `Senders::send_to`: the request is encoded
before the bus map is consulted, so a request that fails to encode yields
the converted presentation error with the state (hence every socket)
untouched, even when the bus is also unknown; and an `UnknownBusId` result
implies the request encoded successfully (and that the bus was indeed not a
key). -/
theorem claim_C10_encode_precedes_bus_lookup {B R : Type} [DecidableEq B]
    (busName : B → Str) (encode : R → Except PresentationError Bytes)
    (ss : Senders B) (bus_id : B) (dest : ServiceAddr) (request : R) :
    (∀ e, encode request = .error e →
        Senders.send_to busName encode ss bus_id dest request
          = (ss, some (EsbError.fromPresentation e))) ∧
    (∀ name, (Senders.send_to busName encode ss bus_id dest request).2
          = some (.unknownBusId name) →
        ∃ data, encode request = .ok data
          ∧ name = busName bus_id
          ∧ lookupBus ss.sessions bus_id = none) := by
  constructor
  · intro e henc
    simp [Senders.send_to, henc]
  · intro name h
    match henc : encode request with
    | .error e =>
      rw [Senders.send_to] at h
      rw [henc] at h
      cases e <;> simp [EsbError.fromPresentation] at h
    | .ok data =>
      refine ⟨data, rfl, ?_⟩
      rw [Senders.send_to, henc] at h
      match hbus : lookupBus ss.sessions bus_id with
      | none =>
        rw [hbus] at h
        simp at h
        exact ⟨h.symm, rfl⟩
      | some sess =>
        rw [hbus] at h
        match hse : sess.sendErr with
        | some e =>
          simp [Session.send_routed_message, hse] at h
        | none =>
          simp [Session.send_routed_message, hse] at h

/-- Witness for C10: on a bus map without bus 0 and a request that fails to
encode, the result is the presentation error — the unknown bus is never
reported; and the `UnknownBusId` shape of a successful-encode call on the
unknown bus 0 implies its encode succeeded. -/
theorem claim_C10_encode_precedes_bus_lookup_witness :
    (Senders.send_to (B := Nat) (fun _ => []) (fun _ : Unit => .error (.other 9))
        ⟨[], [4]⟩ 0 [2] ()
      = (⟨[], [4]⟩, some (EsbError.fromPresentation (.other 9)))) ∧
    (∃ data, (fun _ : Unit => (.ok [] : Except PresentationError Bytes)) ()
        = .ok data
      ∧ ([] : Str) = (fun _ : Nat => ([] : Str)) 0
      ∧ lookupBus (B := Nat) [] 0 = none) :=
  ⟨(claim_C10_encode_precedes_bus_lookup (fun _ => []) (fun _ => .error (.other 9))
      ⟨[], [4]⟩ 0 [2] ()).1 (.other 9) rfl,
   (claim_C10_encode_precedes_bus_lookup (B := Nat) (fun _ => [])
      (fun _ : Unit => .ok []) ⟨[], [4]⟩ 0 [2] ()).2 [] rfl⟩

end RustMicroservices
